import Mathlib

/-!
Verification development for the NBA simulation core
(`src/nba_classes.py`, `src/playoffs.py`, `src/regular_season.py`).

Conventions of the embedding:
* The source computes probabilities with float literals that are all exact
  multiples of 10^-6 (0.03, 0.52, 0.05, 0.45, 0.35, 0.75, 0.7, 0.6, 0.8, …).
  We model probabilities and the values produced by `random.random()` as
  exact integers in micro-units: the integer `x` stands for `x / 10^6`.
  Float rounding noise is abstracted to exact arithmetic.
* Randomness is passed explicitly: every call site of `random.random()`,
  `random.randint`, `random.choice` or `random.choices` reads one component
  of a draw record, so a theorem quantifying over draw records covers every
  possible sequence of random outcomes.
* Logging calls (`add_event`, `logging.*`) and `time.sleep` are side effects
  with no influence on scores, stats or control flow; they are not modelled.
-/

/-- Team name, used as the dict key for scores and win counters in the source. -/
abbrev Team := String

/-- One entry of `data/player_stats.json`: the `"2p%"`, `"3p%"`, `"ft%"` keys
may each be present or absent (micro-units). -/
structure PlayerPcts where
  twoP : Option Int
  threeP : Option Int
  ftP : Option Int

/-- The `player_stats` JSON table loaded at the top of `nba_classes.py`;
`none` models a player name that is not a key of the table. -/
abbrev StatsDB := String → Option PlayerPcts

/-- The `Player` class of `nba_classes.py`: a name, a team, and the stat
counters initialised to 0 in `Player.__init__`. -/
structure Player where
  name : String
  team : Team
  points : Nat
  two_pt : Nat
  three_pt : Nat
  free_throws : Nat
  turnovers : Nat
  rebounds : Nat
  assists : Nat
  steals : Nat
  blocks : Nat
deriving DecidableEq

/-- A fresh `Player(name, team)` with all stats 0. -/
def mkPlayer (name : String) (team : Team) : Player :=
  { name := name, team := team, points := 0, two_pt := 0, three_pt := 0,
    free_throws := 0, turnovers := 0, rebounds := 0, assists := 0,
    steals := 0, blocks := 0 }

/-- The mutable state of an `NBA_Game`: the two team names (`team1` is the
home side), the score dict `{team1: 0, team2: 0}` (insertion order `team1`
first), the `players` dict in insertion order, and `quarters_completed`.
Scores are `Int` because the source stores plain Python ints; the event log
is not modelled (append-only, never read back by the simulation). -/
structure GameState where
  team1 : Team
  team2 : Team
  score1 : Int
  score2 : Int
  players : List Player
  quartersCompleted : Nat
deriving DecidableEq

/-- Python dict assignment `self.players[name] = player`: replace in place if
the key exists, else append (dicts preserve insertion order). -/
def insertPlayer (ps : List Player) (p : Player) : List Player :=
  if ps.any (fun q => q.name = p.name) then
    ps.map (fun q => if q.name = p.name then p else q)
  else ps ++ [p]

/-- `NBA_Game.__init__` followed by `initialize_players`: team-1's roster is
inserted first, then team-2's, into the `players` dict. -/
def mkGame (team1 team2 : Team) (roster1 roster2 : List String) : GameState :=
  { team1 := team1, team2 := team2, score1 := 0, score2 := 0,
    players := (roster2.map (fun n => mkPlayer n team2)).foldl insertPlayer
      ((roster1.map (fun n => mkPlayer n team1)).foldl insertPlayer []),
    quartersCompleted := 0 }

/-- `self.score[team] += n` on the score dict `{team1: _, team2: _}`:
`team` is always one of the two keys, compared in insertion order. -/
def addScore (st : GameState) (team : Team) (n : Nat) : GameState :=
  if team = st.team1 then { st with score1 := st.score1 + n }
  else { st with score2 := st.score2 + n }

/-- Python dict update of one player's entry (`update_stat` mutates the
`Player` stored under its name; names are unique dict keys). -/
def updatePlayer (ps : List Player) (name : String) (f : Player → Player) :
    List Player :=
  ps.map (fun q => if q.name = name then f q else q)

/-- `random.choice(l)`: `some` element of a non-empty list (the index draw is
taken modulo the length), `None`-like `none` when the list is empty, exactly
as `get_random_player` returns `None` for an empty team filter. -/
def randChoice (l : List α) (i : Nat) : Option α := l[i % l.length]?

/-- The six `play_type` outcomes of the `random.choices` call in
`simulate_quarter`. All six weights are positive, so every outcome is a
possible draw. -/
inductive PlayType where
  | twoPt | threePt | freeThrow | turnover | steal | block
deriving DecidableEq

/-- One possession's worth of random draws, one component per call site of
the `random` module in the possession body of `simulate_quarter`. -/
structure PossessionDraws where
  possessionRoll : Int
  playType : PlayType
  offenseIdx : Nat
  defenseIdx : Nat
  shotRoll : Int
  assistRoll : Int
  assistIdx : Nat
  reboundRoll : Int
  rebounderIdx : Nat
  ftShotsRoll : Nat
  ftRoll : Nat → Int

/-- Constant `home_shooting_boost = 0.03` of `simulate_quarter`. -/
def home_shooting_boost : Int := 30000

/-- Constant `home_possession_advantage = 0.52` of `simulate_quarter`. -/
def home_possession_advantage : Int := 520000

/-- Constant `home_rebound_boost = 0.05` of `simulate_quarter`. -/
def home_rebound_boost : Int := 50000

/-- Entry `"2p%": 0.45` of `default_stats`. -/
def default_two_pct : Int := 450000

/-- Entry `"3p%": 0.35` of `default_stats`. -/
def default_three_pct : Int := 350000

/-- Default `0.75` used by `.get('ft%', 0.75)` in the free-throw branch. -/
def default_ft_pct : Int := 750000

/-- Two-point base percentage: `player_stats.get(name, default_stats)['2p%']`,
where a present entry lacking the `'2p%'` key raises `KeyError` and the
handler falls back to `default_stats['2p%']`. -/
def twoPtBase (db : StatsDB) (name : String) : Int :=
  match db name with
  | some p => p.twoP.getD default_two_pct
  | none => default_two_pct

/-- Two-point success chance: the home boost is added exactly when the
shooting team is the home team (both in the `try` and the `except` path). -/
def twoPtChance (db : StatsDB) (name : String) (offenseIsHome : Bool) : Int :=
  if offenseIsHome then twoPtBase db name + home_shooting_boost
  else twoPtBase db name

/-- Three-point base percentage, with the same `KeyError` fallback. -/
def threePtBase (db : StatsDB) (name : String) : Int :=
  match db name with
  | some p => p.threeP.getD default_three_pct
  | none => default_three_pct

/-- Three-point success chance with the home shooting boost. -/
def threePtChance (db : StatsDB) (name : String) (offenseIsHome : Bool) : Int :=
  if offenseIsHome then threePtBase db name + home_shooting_boost
  else threePtBase db name

/-- Free-throw base: `player_stats.get(name, {}).get('ft%', 0.75)`. -/
def ftBase (db : StatsDB) (name : String) : Int :=
  ((db name).bind PlayerPcts.ftP).getD default_ft_pct

/-- Free-throw chance: half the home boost (`home_shooting_boost/2`). -/
def ftChance (db : StatsDB) (name : String) (offenseIsHome : Bool) : Int :=
  if offenseIsHome then ftBase db name + home_shooting_boost / 2
  else ftBase db name

/-- Defensive-rebound chance after a missed two-pointer: base `0.7`, plus the
home rebound boost when the defense is the home team, minus it when the
defense is the away team (`simulate_quarter` lines 169-175). -/
def twoPtDefReboundChance (defenseIsHome : Bool) : Int :=
  if defenseIsHome then 700000 + home_rebound_boost
  else 700000 - home_rebound_boost

/-- Defensive-rebound chance after a missed three-pointer: the flat literal
`0.75` of `simulate_quarter` line 219; the home/away status of the defense is
not consulted. -/
def threePtDefReboundChance (_defenseIsHome : Bool) : Int := 750000

/-- `update_stat('points', 2); update_stat('two_pt', 1)` of a made two. -/
def madeTwo (p : Player) : Player :=
  { p with points := p.points + 2, two_pt := p.two_pt + 1 }

/-- `update_stat('points', 3); update_stat('three_pt', 1)` of a made three. -/
def madeThree (p : Player) : Player :=
  { p with points := p.points + 3, three_pt := p.three_pt + 1 }

/-- `update_stat('points', made)` of the free-throw branch. -/
def madeFts (made : Nat) (p : Player) : Player :=
  { p with points := p.points + made }

/-- `update_stat('assists')`. -/
def bumpAssist (p : Player) : Player := { p with assists := p.assists + 1 }

/-- `update_stat('rebounds')`. -/
def bumpRebound (p : Player) : Player := { p with rebounds := p.rebounds + 1 }

/-- `update_stat('turnovers')`. -/
def bumpTurnover (p : Player) : Player := { p with turnovers := p.turnovers + 1 }

/-- `update_stat('steals')`. -/
def bumpSteal (p : Player) : Player := { p with steals := p.steals + 1 }

/-- `update_stat('blocks')`. -/
def bumpBlock (p : Player) : Player := { p with blocks := p.blocks + 1 }

/-- Replace the `players` dict of a game state. -/
def setPlayers (st : GameState) (ps : List Player) : GameState :=
  { st with players := ps }

/-- Stat update applied to the game state: mutate the player stored under
`name` in the `players` dict. -/
def statUpdate (st : GameState) (name : String) (f : Player → Player) :
    GameState :=
  setPlayers st (updatePlayer st.players name f)

/-- On a miss: one Bernoulli trial against the defensive-rebound chance, then
`get_random_player` of the rebounding side gets `update_stat('rebounds')`
(lines 177-186 and 218-228 of `nba_classes.py`). -/
def reboundStep (st : GameState) (d : PossessionDraws) (chance : Int)
    (defPlayers offPlayers : List Player) : GameState :=
  if d.reboundRoll < chance then
    match randChoice defPlayers d.rebounderIdx with
    | some r => statUpdate st r.name bumpRebound
    | none => st
  else
    match randChoice offPlayers d.rebounderIdx with
    | some r => statUpdate st r.name bumpRebound
    | none => st

/-- After a made shot: a Bernoulli trial (probability `assistChance`) decides
whether a random teammate distinct from the shooter gets an assist. -/
def assistStep (st : GameState) (d : PossessionDraws) (assistChance : Int)
    (offPlayers : List Player) (shooter : String) : GameState :=
  if d.assistRoll < assistChance then
    match randChoice offPlayers d.assistIdx with
    | some a => if a.name = shooter then st else statUpdate st a.name bumpAssist
    | none => st
  else st

/-- Number of free throws made: `shots = random.randint(1, 3)` Bernoulli
trials against the free-throw chance. -/
def ftMade (d : PossessionDraws) (chance : Int) : Nat :=
  ((List.range (1 + d.ftShotsRoll % 3)).filter (fun i => d.ftRoll i < chance)).length

/-- The `play_type` dispatch of the possession loop, once an offense and a
defense player have been drawn (lines 131-260 of `nba_classes.py`). -/
def playStep (db : StatsDB) (st : GameState) (d : PossessionDraws)
    (homeTeam offTeam defTeam : Team) (offPlayers defPlayers : List Player)
    (offP defP : Player) : GameState :=
  match d.playType with
  | PlayType.twoPt =>
    if d.shotRoll < twoPtChance db offP.name (offTeam = homeTeam) then
      assistStep (statUpdate (addScore st offTeam 2) offP.name madeTwo) d
        600000 offPlayers offP.name
    else
      reboundStep st d (twoPtDefReboundChance (defTeam = homeTeam))
        defPlayers offPlayers
  | PlayType.threePt =>
    if d.shotRoll < threePtChance db offP.name (offTeam = homeTeam) then
      assistStep (statUpdate (addScore st offTeam 3) offP.name madeThree) d
        800000 offPlayers offP.name
    else
      reboundStep st d (threePtDefReboundChance (defTeam = homeTeam))
        defPlayers offPlayers
  | PlayType.freeThrow =>
    if 0 < ftMade d (ftChance db offP.name (offTeam = homeTeam)) then
      statUpdate
        (addScore st offTeam (ftMade d (ftChance db offP.name (offTeam = homeTeam))))
        offP.name (madeFts (ftMade d (ftChance db offP.name (offTeam = homeTeam))))
    else st
  | PlayType.turnover => statUpdate st offP.name bumpTurnover
  | PlayType.steal => statUpdate st defP.name bumpSteal
  | PlayType.block => statUpdate st defP.name bumpBlock

/-- Body of one iteration of the possession loop of
`NBA_Game.simulate_quarter` (lines 107-263 of `nba_classes.py`): the home
side gets possession with probability `home_possession_advantage`; if either
team filter yields no player the possession is skipped (`continue`). -/
def possessionStep (db : StatsDB) (st : GameState) (d : PossessionDraws) :
    GameState :=
  let homeTeam := st.team1
  let awayTeam := st.team2
  let offTeam := if d.possessionRoll < home_possession_advantage
    then homeTeam else awayTeam
  let defTeam := if d.possessionRoll < home_possession_advantage
    then awayTeam else homeTeam
  let offPlayers := st.players.filter (fun p => p.team = offTeam)
  let defPlayers := st.players.filter (fun p => p.team = defTeam)
  match randChoice offPlayers d.offenseIdx, randChoice defPlayers d.defenseIdx with
  | some offP, some defP =>
    playStep db st d homeTeam offTeam defTeam offPlayers defPlayers offP defP
  | _, _ => st

/-- Random draws for one quarter: the `random.randint(20, 30)` possession
count and a draw record per possession. -/
structure QuarterDraws where
  possessionsRoll : Nat
  draws : Nat → PossessionDraws

/-- Value of `possessions = random.randint(20, 30)`. -/
def possessionCount (q : QuarterDraws) : Nat := 20 + q.possessionsRoll % 11

/-- `NBA_Game.simulate_quarter`: run the possession loop, then increment
`quarters_completed`. -/
def simulate_quarter (db : StatsDB) (q : QuarterDraws) (st : GameState) :
    GameState :=
  let st1 := (List.range (possessionCount q)).foldl
    (fun s i => possessionStep db s (q.draws i)) st
  { st1 with quartersCompleted := st1.quartersCompleted + 1 }

/-- The regulation part of `NBA_Game.run`: `for quarter in range(1, 5)`. -/
def runRegulation (db : StatsDB) (env : Nat → QuarterDraws) (st : GameState) :
    GameState :=
  (List.range 4).foldl (fun s i => simulate_quarter db (env (i + 1)) s) st

/-- `NBA_Game.run` up to the winner determination: four quarters, then one
overtime quarter exactly when the scores are equal after quarter 4
(`if self.score[self.team1] == self.score[self.team2]: self.simulate_quarter(5)`). -/
def NBA_Game.run (db : StatsDB) (env : Nat → QuarterDraws) (st : GameState) :
    GameState :=
  let s4 := runRegulation db env st
  if s4.score1 = s4.score2 then simulate_quarter db (env 5) s4 else s4

/-- `winner = max(self.score, key=self.score.get)`: Python `max` iterates the
dict keys in insertion order (`team1` first) and keeps the first maximal one,
so `team2` wins exactly when its score is strictly greater. -/
def gameWinner (st : GameState) : Team :=
  if st.score2 > st.score1 then st.team2 else st.team1

/-- Score-dict lookup `self.score[t]` for `t` one of the two keys. -/
def scoreOf (st : GameState) (t : Team) : Int :=
  if t = st.team1 then st.score1 else st.score2

/-- A draw record whose components are all zero. -/
def zeroDraws : PossessionDraws :=
  { possessionRoll := 0, playType := PlayType.twoPt, offenseIdx := 0,
    defenseIdx := 0, shotRoll := 0, assistRoll := 0, assistIdx := 0,
    reboundRoll := 0, rebounderIdx := 0, ftShotsRoll := 0, ftRoll := fun _ => 0 }

/-- A quarter environment drawing the minimum possession count and zero draws. -/
def zeroEnv : Nat → QuarterDraws :=
  fun _ => { possessionsRoll := 0, draws := fun _ => zeroDraws }

/-- A stats table with no entries. -/
def emptyDB : StatsDB := fun _ => none

theorem statUpdate_team1 (st : GameState) (n : String) (f : Player → Player) :
    (statUpdate st n f).team1 = st.team1 := rfl

theorem statUpdate_team2 (st : GameState) (n : String) (f : Player → Player) :
    (statUpdate st n f).team2 = st.team2 := rfl

theorem statUpdate_score1 (st : GameState) (n : String) (f : Player → Player) :
    (statUpdate st n f).score1 = st.score1 := rfl

theorem statUpdate_score2 (st : GameState) (n : String) (f : Player → Player) :
    (statUpdate st n f).score2 = st.score2 := rfl

theorem statUpdate_quarters (st : GameState) (n : String) (f : Player → Player) :
    (statUpdate st n f).quartersCompleted = st.quartersCompleted := rfl

theorem addScore_team1 (st : GameState) (t : Team) (n : Nat) :
    (addScore st t n).team1 = st.team1 := by
  unfold addScore; split <;> rfl

theorem addScore_team2 (st : GameState) (t : Team) (n : Nat) :
    (addScore st t n).team2 = st.team2 := by
  unfold addScore; split <;> rfl

theorem addScore_quarters (st : GameState) (t : Team) (n : Nat) :
    (addScore st t n).quartersCompleted = st.quartersCompleted := by
  unfold addScore; split <;> rfl

theorem addScore_score1 (st : GameState) (t : Team) (n : Nat) :
    (addScore st t n).score1 = if t = st.team1 then st.score1 + n else st.score1 := by
  unfold addScore; split <;> rfl

theorem addScore_score2 (st : GameState) (t : Team) (n : Nat) :
    (addScore st t n).score2 = if t = st.team1 then st.score2 else st.score2 + n := by
  unfold addScore; split <;> rfl

theorem reboundStep_skeleton (st : GameState) (d : PossessionDraws) (c : Int)
    (dp op : List Player) :
    (reboundStep st d c dp op).team1 = st.team1 ∧
    (reboundStep st d c dp op).team2 = st.team2 ∧
    (reboundStep st d c dp op).score1 = st.score1 ∧
    (reboundStep st d c dp op).score2 = st.score2 ∧
    (reboundStep st d c dp op).quartersCompleted = st.quartersCompleted := by
  unfold reboundStep
  repeat' split
  all_goals exact ⟨rfl, rfl, rfl, rfl, rfl⟩

theorem assistStep_skeleton (st : GameState) (d : PossessionDraws) (c : Int)
    (op : List Player) (sh : String) :
    (assistStep st d c op sh).team1 = st.team1 ∧
    (assistStep st d c op sh).team2 = st.team2 ∧
    (assistStep st d c op sh).score1 = st.score1 ∧
    (assistStep st d c op sh).score2 = st.score2 ∧
    (assistStep st d c op sh).quartersCompleted = st.quartersCompleted := by
  unfold assistStep
  repeat' split
  all_goals exact ⟨rfl, rfl, rfl, rfl, rfl⟩

theorem playStep_preserves (db : StatsDB) (st : GameState) (d : PossessionDraws)
    (hm ot dt : Team) (op dp : List Player) (oP dP : Player) :
    (playStep db st d hm ot dt op dp oP dP).team1 = st.team1 ∧
    (playStep db st d hm ot dt op dp oP dP).team2 = st.team2 ∧
    (playStep db st d hm ot dt op dp oP dP).quartersCompleted = st.quartersCompleted ∧
    st.score1 ≤ (playStep db st d hm ot dt op dp oP dP).score1 ∧
    st.score2 ≤ (playStep db st d hm ot dt op dp oP dP).score2 := by
  unfold playStep
  repeat' split
  all_goals refine ⟨?_, ?_, ?_, ?_, ?_⟩
  all_goals try
    simp only [statUpdate_team1, statUpdate_team2, statUpdate_score1,
      statUpdate_score2, statUpdate_quarters, addScore_team1, addScore_team2,
      addScore_quarters, addScore_score1, addScore_score2,
      (reboundStep_skeleton _ _ _ _ _).1, (reboundStep_skeleton _ _ _ _ _).2.1,
      (reboundStep_skeleton _ _ _ _ _).2.2.1,
      (reboundStep_skeleton _ _ _ _ _).2.2.2.1,
      (reboundStep_skeleton _ _ _ _ _).2.2.2.2,
      (assistStep_skeleton _ _ _ _ _).1, (assistStep_skeleton _ _ _ _ _).2.1,
      (assistStep_skeleton _ _ _ _ _).2.2.1,
      (assistStep_skeleton _ _ _ _ _).2.2.2.1,
      (assistStep_skeleton _ _ _ _ _).2.2.2.2]
  all_goals first
  | rfl
  | omega

/-- One possession never changes the team names or the quarter counter, and
can only increase either score. -/
theorem possessionStep_preserves (db : StatsDB) (st : GameState)
    (d : PossessionDraws) :
    (possessionStep db st d).team1 = st.team1 ∧
    (possessionStep db st d).team2 = st.team2 ∧
    (possessionStep db st d).quartersCompleted = st.quartersCompleted ∧
    st.score1 ≤ (possessionStep db st d).score1 ∧
    st.score2 ≤ (possessionStep db st d).score2 := by
  unfold possessionStep
  dsimp only
  repeat' split
  all_goals first
  | exact playStep_preserves _ _ _ _ _ _ _ _ _ _
  | exact ⟨rfl, rfl, rfl, le_refl _, le_refl _⟩

/-- The possession loop of a quarter never changes the team names or the
quarter counter, and can only increase the scores. -/
theorem possFold_preserves (db : StatsDB) (f : Nat → PossessionDraws)
    (l : List Nat) (st : GameState) :
    (l.foldl (fun s i => possessionStep db s (f i)) st).team1 = st.team1 ∧
    (l.foldl (fun s i => possessionStep db s (f i)) st).team2 = st.team2 ∧
    (l.foldl (fun s i => possessionStep db s (f i)) st).quartersCompleted
      = st.quartersCompleted ∧
    st.score1 ≤ (l.foldl (fun s i => possessionStep db s (f i)) st).score1 ∧
    st.score2 ≤ (l.foldl (fun s i => possessionStep db s (f i)) st).score2 := by
  induction l generalizing st with
  | nil => exact ⟨rfl, rfl, rfl, le_refl _, le_refl _⟩
  | cons a l ih =>
    obtain ⟨h1, h2, h3, h4, h5⟩ := ih (possessionStep db st (f a))
    obtain ⟨g1, g2, g3, g4, g5⟩ := possessionStep_preserves db st (f a)
    exact ⟨h1.trans g1, h2.trans g2, h3.trans g3, g4.trans h4, g5.trans h5⟩

/-- `simulate_quarter` keeps the team names, adds exactly one to
`quarters_completed`, and can only increase the scores. -/
theorem simulate_quarter_preserves (db : StatsDB) (q : QuarterDraws)
    (st : GameState) :
    (simulate_quarter db q st).team1 = st.team1 ∧
    (simulate_quarter db q st).team2 = st.team2 ∧
    (simulate_quarter db q st).quartersCompleted = st.quartersCompleted + 1 ∧
    st.score1 ≤ (simulate_quarter db q st).score1 ∧
    st.score2 ≤ (simulate_quarter db q st).score2 := by
  unfold simulate_quarter
  obtain ⟨h1, h2, h3, h4, h5⟩ :=
    possFold_preserves db q.draws (List.range (possessionCount q)) st
  refine ⟨h1, h2, ?_, h4, h5⟩
  dsimp only
  omega

/-- A sequence of quarters keeps the team names, adds the number of quarters
to `quarters_completed`, and can only increase the scores. -/
theorem quarterFold_preserves (db : StatsDB) (env : Nat → QuarterDraws)
    (l : List Nat) (st : GameState) :
    (l.foldl (fun s i => simulate_quarter db (env (i + 1)) s) st).team1 = st.team1 ∧
    (l.foldl (fun s i => simulate_quarter db (env (i + 1)) s) st).team2 = st.team2 ∧
    (l.foldl (fun s i => simulate_quarter db (env (i + 1)) s) st).quartersCompleted
      = st.quartersCompleted + l.length ∧
    st.score1 ≤ (l.foldl (fun s i => simulate_quarter db (env (i + 1)) s) st).score1 ∧
    st.score2 ≤ (l.foldl (fun s i => simulate_quarter db (env (i + 1)) s) st).score2 := by
  induction l generalizing st with
  | nil => exact ⟨rfl, rfl, rfl, le_refl _, le_refl _⟩
  | cons a l ih =>
    obtain ⟨h1, h2, h3, h4, h5⟩ := ih (simulate_quarter db (env (a + 1)) st)
    obtain ⟨g1, g2, g3, g4, g5⟩ := simulate_quarter_preserves db (env (a + 1)) st
    refine ⟨h1.trans g1, h2.trans g2, ?_, g4.trans h4, g5.trans h5⟩
    simp only [List.foldl_cons, List.length_cons] at h3 ⊢
    rw [h3, g3]
    omega

/-- `runRegulation` keeps the teams, completes exactly 4 quarters, and only
increases the scores. -/
theorem runRegulation_preserves (db : StatsDB) (env : Nat → QuarterDraws)
    (st : GameState) :
    (runRegulation db env st).team1 = st.team1 ∧
    (runRegulation db env st).team2 = st.team2 ∧
    (runRegulation db env st).quartersCompleted = st.quartersCompleted + 4 ∧
    st.score1 ≤ (runRegulation db env st).score1 ∧
    st.score2 ≤ (runRegulation db env st).score2 := by
  unfold runRegulation
  exact quarterFold_preserves db env (List.range 4) st

/-- Case analysis of `NBA_Game.run`: exactly one extra quarter is simulated
when regulation ends tied, none otherwise. -/
theorem run_cases (db : StatsDB) (env : Nat → QuarterDraws) (st : GameState) :
    ((runRegulation db env st).score1 = (runRegulation db env st).score2 →
      NBA_Game.run db env st = simulate_quarter db (env 5) (runRegulation db env st)) ∧
    ((runRegulation db env st).score1 ≠ (runRegulation db env st).score2 →
      NBA_Game.run db env st = runRegulation db env st) := by
  unfold NBA_Game.run
  constructor
  · intro h; simp [h]
  · intro h; simp [h]

/-- `NBA_Game.run` keeps the teams, completes 4 or 5 quarters, and only
increases the scores. -/
theorem run_preserves (db : StatsDB) (env : Nat → QuarterDraws)
    (st : GameState) :
    (NBA_Game.run db env st).team1 = st.team1 ∧
    (NBA_Game.run db env st).team2 = st.team2 ∧
    ((NBA_Game.run db env st).quartersCompleted = st.quartersCompleted + 4 ∨
      (NBA_Game.run db env st).quartersCompleted = st.quartersCompleted + 5) ∧
    st.score1 ≤ (NBA_Game.run db env st).score1 ∧
    st.score2 ≤ (NBA_Game.run db env st).score2 := by
  unfold NBA_Game.run
  obtain ⟨h1, h2, h3, h4, h5⟩ := runRegulation_preserves db env st
  dsimp only
  split
  · obtain ⟨g1, g2, g3, g4, g5⟩ :=
      simulate_quarter_preserves db (env 5) (runRegulation db env st)
    exact ⟨g1.trans h1, g2.trans h2, Or.inr (by omega), h4.trans g4, h5.trans g5⟩
  · exact ⟨h1, h2, Or.inl h3, h4, h5⟩

theorem mkGame_fields (t1 t2 : Team) (r1 r2 : List String) :
    (mkGame t1 t2 r1 r2).team1 = t1 ∧ (mkGame t1 t2 r1 r2).team2 = t2 ∧
    (mkGame t1 t2 r1 r2).score1 = 0 ∧ (mkGame t1 t2 r1 r2).score2 = 0 ∧
    (mkGame t1 t2 r1 r2).quartersCompleted = 0 :=
  ⟨rfl, rfl, rfl, rfl, rfl⟩

/-- The declared winner's dict entry holds the maximal score (`max` over the
insertion-ordered score dict). -/
theorem gameWinner_scoreOf (st : GameState) (h : st.team1 ≠ st.team2) :
    scoreOf st (gameWinner st) = max st.score1 st.score2 := by
  unfold gameWinner scoreOf
  split
  · rw [if_neg (Ne.symm h)]
    omega
  · rw [if_pos rfl]
    omega

/-- `randChoice` on an empty list is `none` (`get_random_player` returns
`None` when the team filter is empty). -/
theorem randChoice_nil (i : Nat) : randChoice ([] : List Player) i = none := by
  simp [randChoice]

/-- A possession in which either team's filter over the `players` dict is
empty hits the `continue` branch: the whole state is untouched. -/
theorem possessionStep_noop (db : StatsDB) (st : GameState) (d : PossessionDraws)
    (h : st.players.filter (fun p => p.team = st.team1) = [] ∨
      st.players.filter (fun p => p.team = st.team2) = []) :
    possessionStep db st d = st := by
  unfold possessionStep
  dsimp only
  by_cases hpos : d.possessionRoll < home_possession_advantage
  · simp only [if_pos hpos]
    rcases h with h | h
    · rw [h, randChoice_nil]
    · rw [h, randChoice_nil]
      cases randChoice (st.players.filter (fun p => p.team = st.team1)) d.offenseIdx <;> rfl
  · simp only [if_neg hpos]
    rcases h with h | h
    · rw [h, randChoice_nil]
      cases randChoice (st.players.filter (fun p => p.team = st.team2)) d.offenseIdx <;> rfl
    · rw [h, randChoice_nil]

/-- C8: a possession of `simulate_quarter` in which either team's active
roster is empty (no player can be drawn for offense or defense) is a no-op:
the scores, every player stat line and the box score are unchanged, and the
embedded step is total, so no error is raised. -/
theorem emptyRosterPossessionNoOp (db : StatsDB) (st : GameState)
    (d : PossessionDraws)
    (h : st.players.filter (fun p => p.team = st.team1) = [] ∨
      st.players.filter (fun p => p.team = st.team2) = []) :
    possessionStep db st d = st ∧
    (possessionStep db st d).score1 = st.score1 ∧
    (possessionStep db st d).score2 = st.score2 ∧
    (possessionStep db st d).players = st.players := by
  have he := possessionStep_noop db st d h
  exact ⟨he, by rw [he], by rw [he], by rw [he]⟩

/-- A game state whose `players` dict holds no player of the home team. -/
def c8State : GameState :=
  { team1 := "A", team2 := "B", score1 := 3, score2 := 7,
    players := [mkPlayer "P" "B"], quartersCompleted := 2 }

/-- Witness for C8 at a concrete state with an empty home-team roster. -/
theorem emptyRosterPossessionNoOp_witness :
    possessionStep emptyDB c8State zeroDraws = c8State ∧
    (possessionStep emptyDB c8State zeroDraws).score1 = c8State.score1 ∧
    (possessionStep emptyDB c8State zeroDraws).score2 = c8State.score2 ∧
    (possessionStep emptyDB c8State zeroDraws).players = c8State.players :=
  emptyRosterPossessionNoOp emptyDB c8State zeroDraws (Or.inl (by decide))

/-- C7 counterexample: on a missed three-pointer the defensive-rebound
probability used by `simulate_quarter` is the same whether the defending team
is the home or the away team, while the rebound modifier is nonzero — so the
home/away rebound modifier is not applied to three-point misses, refuting the
claim that it is applied to two-point and three-point misses alike. -/
theorem threePtReboundIgnoresHomeAway :
    threePtDefReboundChance true = threePtDefReboundChance false ∧
    threePtDefReboundChance true - threePtDefReboundChance false
      ≠ 2 * home_rebound_boost := by
  decide

/-- C7 (amended): the symmetric home/away rebound modifier is applied only on
missed two-point shots (base `0.7` plus the boost for a home defense, minus
the same amount for an away defense); missed three-pointers use the flat
defensive-rebound probability `0.75` with no home/away modifier. -/
theorem reboundBoostTwoPtOnly :
    (∀ b : Bool, twoPtDefReboundChance b
      = 700000 + (if b then home_rebound_boost else -home_rebound_boost)) ∧
    (∀ b : Bool, threePtDefReboundChance b = 750000) := by
  constructor
  · intro b; cases b <;> decide
  · intro b; cases b <;> decide

set_option maxRecDepth 8000 in
/-- C2 counterexample: a full `NBA_Game.run` (both rosters empty, every
quarter scoreless) reaches the end of quarter 4 tied, simulates exactly one
overtime quarter — not a repeated sequence of overtimes — and ends with the
two final scores still equal, refuting the claim that overtime repeats until
a period ends with unequal scores. -/
theorem tiedOvertimeGameEnds :
    (NBA_Game.run emptyDB zeroEnv (mkGame "A" "B" [] [])).score1
      = (NBA_Game.run emptyDB zeroEnv (mkGame "A" "B" [] [])).score2 ∧
    (NBA_Game.run emptyDB zeroEnv (mkGame "A" "B" [] [])).quartersCompleted = 5 := by
  decide

/-- C2 (amended): if the two scores are equal at the end of quarter 4,
exactly one overtime period is simulated; the game then ends whether or not
the overtime broke the tie, so every run completes 4 or 5 quarters, with 5
exactly on a regulation tie. -/
theorem oneOvertimeOnly (db : StatsDB) (env : Nat → QuarterDraws)
    (t1 t2 : Team) (r1 r2 : List String) :
    ((NBA_Game.run db env (mkGame t1 t2 r1 r2)).quartersCompleted = 4 ∨
      (NBA_Game.run db env (mkGame t1 t2 r1 r2)).quartersCompleted = 5) ∧
    ((runRegulation db env (mkGame t1 t2 r1 r2)).score1
        = (runRegulation db env (mkGame t1 t2 r1 r2)).score2 ↔
      (NBA_Game.run db env (mkGame t1 t2 r1 r2)).quartersCompleted = 5) := by
  have hq0 : (mkGame t1 t2 r1 r2).quartersCompleted = 0 := rfl
  have hreg := (runRegulation_preserves db env (mkGame t1 t2 r1 r2)).2.2.1
  by_cases htie : (runRegulation db env (mkGame t1 t2 r1 r2)).score1
      = (runRegulation db env (mkGame t1 t2 r1 r2)).score2
  · have he := (run_cases db env (mkGame t1 t2 r1 r2)).1 htie
    have hq := (simulate_quarter_preserves db (env 5)
      (runRegulation db env (mkGame t1 t2 r1 r2))).2.2.1
    have h5 : (NBA_Game.run db env (mkGame t1 t2 r1 r2)).quartersCompleted = 5 := by
      rw [he, hq, hreg, hq0]
    exact ⟨Or.inr h5, ⟨fun _ => h5, fun _ => htie⟩⟩
  · have he := (run_cases db env (mkGame t1 t2 r1 r2)).2 htie
    have h4 : (NBA_Game.run db env (mkGame t1 t2 r1 r2)).quartersCompleted = 4 := by
      rw [he, hreg, hq0]
    exact ⟨Or.inl h4, ⟨fun hcon => absurd hcon htie, fun h5 => by omega⟩⟩

/-- C9: when the two scores are equal after `NBA_Game.run` finishes — which
happens exactly when the single overtime period also ends tied — the game
nevertheless ends and `team1` (the home side, the first key inserted into the
score dict) is the declared winner, because `max` over the insertion-ordered
dict resolves ties in favour of the first key. -/
theorem tiedFinalScoreAwardsTeam1 (db : StatsDB) (env : Nat → QuarterDraws)
    (st : GameState)
    (h : (NBA_Game.run db env st).score1 = (NBA_Game.run db env st).score2) :
    gameWinner (NBA_Game.run db env st) = st.team1 := by
  unfold gameWinner
  rw [if_neg (by omega), (run_preserves db env st).1]

set_option maxRecDepth 8000 in
/-- Witness for C9: a scoreless game (both rosters empty) ends tied after
overtime and team1 is declared winner. -/
theorem tiedFinalScoreAwardsTeam1_witness :
    gameWinner (NBA_Game.run emptyDB zeroEnv (mkGame "A" "B" [] [])) = "A" :=
  tiedFinalScoreAwardsTeam1 emptyDB zeroEnv (mkGame "A" "B" [] []) (by decide)

/-- C6: for every completed game, both final scores are non-negative
integers, the declared winner's score-dict entry is the maximal final score,
and a regulation (four-quarter) tie always triggers an overtime period before
the game ends (`quarters_completed` reaches 5). -/
theorem gameResultSound (db : StatsDB) (env : Nat → QuarterDraws)
    (t1 t2 : Team) (r1 r2 : List String) (hne : t1 ≠ t2) :
    0 ≤ (NBA_Game.run db env (mkGame t1 t2 r1 r2)).score1 ∧
    0 ≤ (NBA_Game.run db env (mkGame t1 t2 r1 r2)).score2 ∧
    scoreOf (NBA_Game.run db env (mkGame t1 t2 r1 r2))
        (gameWinner (NBA_Game.run db env (mkGame t1 t2 r1 r2)))
      = max (NBA_Game.run db env (mkGame t1 t2 r1 r2)).score1
          (NBA_Game.run db env (mkGame t1 t2 r1 r2)).score2 ∧
    ((runRegulation db env (mkGame t1 t2 r1 r2)).score1
        = (runRegulation db env (mkGame t1 t2 r1 r2)).score2 →
      5 ≤ (NBA_Game.run db env (mkGame t1 t2 r1 r2)).quartersCompleted) := by
  obtain ⟨e1, e2, _, e4, e5⟩ := run_preserves db env (mkGame t1 t2 r1 r2)
  have hs1 : (mkGame t1 t2 r1 r2).score1 = 0 := rfl
  have hs2 : (mkGame t1 t2 r1 r2).score2 = 0 := rfl
  refine ⟨by omega, by omega, ?_, ?_⟩
  · apply gameWinner_scoreOf
    rw [e1, e2]
    exact hne
  · intro htie
    have he := (run_cases db env (mkGame t1 t2 r1 r2)).1 htie
    have hq := (simulate_quarter_preserves db (env 5)
      (runRegulation db env (mkGame t1 t2 r1 r2))).2.2.1
    have hreg := (runRegulation_preserves db env (mkGame t1 t2 r1 r2)).2.2.1
    have hq0 : (mkGame t1 t2 r1 r2).quartersCompleted = 0 := rfl
    rw [he, hq, hreg, hq0]

/-- Witness for C6 at a concrete game between distinct teams. -/
theorem gameResultSound_witness :
    0 ≤ (NBA_Game.run emptyDB zeroEnv (mkGame "A" "B" [] [])).score1 ∧
    0 ≤ (NBA_Game.run emptyDB zeroEnv (mkGame "A" "B" [] [])).score2 ∧
    scoreOf (NBA_Game.run emptyDB zeroEnv (mkGame "A" "B" [] []))
        (gameWinner (NBA_Game.run emptyDB zeroEnv (mkGame "A" "B" [] [])))
      = max (NBA_Game.run emptyDB zeroEnv (mkGame "A" "B" [] [])).score1
          (NBA_Game.run emptyDB zeroEnv (mkGame "A" "B" [] [])).score2 ∧
    ((runRegulation emptyDB zeroEnv (mkGame "A" "B" [] [])).score1
        = (runRegulation emptyDB zeroEnv (mkGame "A" "B" [] [])).score2 →
      5 ≤ (NBA_Game.run emptyDB zeroEnv (mkGame "A" "B" [] [])).quartersCompleted) :=
  gameResultSound emptyDB zeroEnv "A" "B" [] [] (by decide)

/-- One scheduled playoff game as produced by `generate_playoff_schedule`:
the fields of the schedule dict that `simulate_single_series` reads or
writes (`game_num`, `home`, `away`, `must_win`). -/
structure ScheduledGame where
  gameNum : Nat
  home : Team
  away : Team
  mustWin : Bool
deriving DecidableEq

/-- The value returned by `simulate_game_with_stadium_ops` for a played game
(its `game_num`, `home`, `away`, `winner` and score string). -/
structure GameOutcome where
  gameNum : Nat
  home : Team
  away : Team
  winner : Team
  score : String
deriving DecidableEq

/-- Oracle for `simulate_game_with_stadium_ops`: `none` models the branch in
which the game id is missing from `playoff_results` and the function returns
`None`. -/
abbrev GameOracle := ScheduledGame → Option GameOutcome

/-- The running state of `simulate_single_series`: the two win counters of
the `wins` dict (keyed `team1` then `team2`), `played_games`, the evolving
schedule list (whose `must_win` flags are mutated in place), and — as proof
instrumentation — the count of games actually simulated (calls made to
`simulate_game_with_stadium_ops`). -/
structure SeriesState where
  wins1 : Nat
  wins2 : Nat
  played : List GameOutcome
  simulatedCount : Nat
  sched : List ScheduledGame
deriving DecidableEq

/-- `wins[winner] += 1` on the dict `{team1: _, team2: _}`: the keys are
compared in insertion order. A winner equal to neither key would raise
`KeyError` in Python; theorems that need it assume the winner is one of the
two teams. -/
def addWin (team1 team2 : Team) (st : SeriesState) (w : Team) : SeriesState :=
  if w = team1 then { st with wins1 := st.wins1 + 1 }
  else if w = team2 then { st with wins2 := st.wins2 + 1 }
  else st

/-- `g['must_win'] = True` for every game with a larger game number
(lines 325-332 of `playoffs.py`). -/
def markMustWin (gs : List ScheduledGame) (n : Nat) : List ScheduledGame :=
  gs.map (fun g => if n < g.gameNum then { g with mustWin := true } else g)

/-- One iteration of the `for game in games` loop of
`simulate_single_series`: while neither counter has reached 4 the game is
simulated (counted in `simulatedCount`); a `None` result adds no win and no
played game; afterwards later games are flagged must-win when a counter
stands at 3. Once a counter has reached 4 the iteration only logs a skip and
changes nothing. -/
def seriesStep (orac : GameOracle) (team1 team2 : Team) (st : SeriesState)
    (g : ScheduledGame) : SeriesState :=
  if max st.wins1 st.wins2 < 4 then
    let st1 := { st with simulatedCount := st.simulatedCount + 1 }
    let st2 := match orac g with
      | some r =>
        let s := addWin team1 team2 st1 r.winner
        { s with played := s.played ++ [r] }
      | none => st1
    if st2.wins1 = 3 then { st2 with sched := markMustWin st2.sched g.gameNum }
    else if st2.wins2 = 3 then { st2 with sched := markMustWin st2.sched g.gameNum }
    else st2
  else st

/-- One position of the `for game in games` loop: Python iterates the list
object by position while the loop body mutates the `must_win` fields in
place, so iteration `i` reads game `i` from the current schedule state. -/
def seriesIter (orac : GameOracle) (team1 team2 : Team) (st : SeriesState)
    (i : Nat) : SeriesState :=
  match st.sched[i]? with
  | some g => seriesStep orac team1 team2 st g
  | none => st

/-- The whole `for game in games` loop of `simulate_single_series`. -/
def seriesLoop (orac : GameOracle) (team1 team2 : Team) (st0 : SeriesState) :
    SeriesState :=
  (List.range st0.sched.length).foldl (seriesIter orac team1 team2) st0

/-- The value returned by `simulate_single_series`, plus the instrumentation
counter of games actually simulated. -/
structure SeriesOutcome where
  winner : Team
  wins1 : Nat
  wins2 : Nat
  games : List GameOutcome
  simulatedCount : Nat
deriving DecidableEq

/-- `simulate_single_series(games)`: `team1 = games[0]['home']`,
`team2 = games[0]['away']` (an empty schedule would raise `IndexError`,
modelled as `none`); the loop runs over the schedule; the series winner is
`team1 if wins[team1] > wins[team2] else team2`. -/
def simulate_single_series (orac : GameOracle) (games : List ScheduledGame) :
    Option SeriesOutcome :=
  match games with
  | [] => none
  | g0 :: _ =>
    let team1 := g0.home
    let team2 := g0.away
    let st := seriesLoop orac team1 team2
      { wins1 := 0, wins2 := 0, played := [], simulatedCount := 0, sched := games }
    some { winner := if st.wins2 < st.wins1 then team1 else team2,
           wins1 := st.wins1, wins2 := st.wins2, games := st.played,
           simulatedCount := st.simulatedCount }

/-- The win count of the declared series winner (`wins[series_winner]`),
given the home team of the series' first game. -/
def winnerWinCount (team1 : Team) (o : SeriesOutcome) : Nat :=
  if o.winner = team1 then o.wins1 else o.wins2

/-- The canonical 7-game schedule of one series as `generate_playoff_schedule`
lays it out: the higher seed `A` hosts games 1, 2, 5, 7; `B` hosts 3, 4, 6. -/
def demoSched : List ScheduledGame :=
  [ { gameNum := 1, home := "A", away := "B", mustWin := false },
    { gameNum := 2, home := "A", away := "B", mustWin := false },
    { gameNum := 3, home := "B", away := "A", mustWin := false },
    { gameNum := 4, home := "B", away := "A", mustWin := false },
    { gameNum := 5, home := "A", away := "B", mustWin := false },
    { gameNum := 6, home := "B", away := "A", mustWin := false },
    { gameNum := 7, home := "A", away := "B", mustWin := false } ]

/-- A stubbed game oracle in which team `"A"` wins every game. -/
def aWinsOracle : GameOracle :=
  fun g => some { gameNum := g.gameNum, home := g.home, away := g.away,
                  winner := "A", score := "101-99" }

/-- The oracle of a playoff run whose result table has no entry for any game
(`simulate_game_with_stadium_ops` returns `None` every time). -/
def missingOracle : GameOracle := fun _ => none

/-- C3: once either win counter of a series has reached 4, an iteration of
the `simulate_single_series` loop changes nothing — in particular it
simulates no further game; and for the stubbed outcome sequence in which
team A wins the first four games of the canonical 7-game schedule, exactly 4
games are simulated and A is the series winner. -/
theorem seriesStopsAtFourWins :
    (∀ (orac : GameOracle) (t1 t2 : Team) (st : SeriesState)
      (g : ScheduledGame), 4 ≤ max st.wins1 st.wins2 →
      seriesStep orac t1 t2 st g = st) ∧
    (simulate_single_series aWinsOracle demoSched).map
        (fun o => (o.winner, o.simulatedCount, o.wins1, o.wins2))
      = some ("A", 4, 4, 0) := by
  constructor
  · intro orac t1 t2 st g h
    unfold seriesStep
    rw [if_neg (by omega)]
  · decide

/-- Witness for C3: a decided series state (4 wins) is untouched by a further
loop iteration. -/
theorem seriesStopsAtFourWins_witness :
    seriesStep aWinsOracle "A" "B"
      { wins1 := 4, wins2 := 0, played := [], simulatedCount := 4, sched := [] }
      { gameNum := 5, home := "A", away := "B", mustWin := false }
      = { wins1 := 4, wins2 := 0, played := [], simulatedCount := 4, sched := [] } :=
  seriesStopsAtFourWins.1 aWinsOracle "A" "B" _ _ (by decide)

/-- C10: when the two win counters of a series end equal — which happens when
individual game results are missing from the playoff result table, since a
`None` game result adds no win — the declared series winner is `team2`, the
away side of the series' first scheduled game, because the winner expression
is `team1 if wins[team1] > wins[team2] else team2`. -/
theorem tiedSeriesAwardsTeam2 (orac : GameOracle) (g0 : ScheduledGame)
    (gs : List ScheduledGame) (o : SeriesOutcome)
    (h : simulate_single_series orac (g0 :: gs) = some o)
    (htie : o.wins1 = o.wins2) : o.winner = g0.away := by
  unfold simulate_single_series at h
  dsimp only at h
  injection h with h
  subst h
  dsimp only at htie ⊢
  rw [if_neg (by omega)]

/-- Witness for C10: with every game result missing, the series ends 0-0 and
team2 (`"B"`) is declared winner. -/
theorem tiedSeriesAwardsTeam2_witness :
    simulate_single_series missingOracle demoSched
      = some { winner := "B", wins1 := 0, wins2 := 0, games := [],
               simulatedCount := 7 } ∧
    ({ winner := "B", wins1 := 0, wins2 := 0, games := [],
       simulatedCount := 7 } : SeriesOutcome).winner = "B" :=
  ⟨by decide,
   tiedSeriesAwardsTeam2 missingOracle
     { gameNum := 1, home := "A", away := "B", mustWin := false }
     (demoSched.drop 1) _ (by decide) (by decide)⟩

/-- C5 counterexample: with every game result missing from the playoff result
table — the situation `simulate_single_series` actually encounters in `src/`,
where `NBA_Game.run` stores results under `game_results` while
`simulate_game_with_stadium_ops` reads `playoff_results` — the completed
series carries 0 game results and win counts 0-0: their sum is not between 4
and 7, and the winner's count is 0, not 4, refuting the claim as stated. -/
theorem seriesWinCountsCanFallShort :
    simulate_single_series missingOracle demoSched
      = some { winner := "B", wins1 := 0, wins2 := 0, games := [],
               simulatedCount := 7 } ∧
    ¬(4 ≤ (0 : Nat) + 0 ∧ (0 : Nat) + 0 ≤ 7) ∧
    winnerWinCount "A"
      { winner := "B", wins1 := 0, wins2 := 0, games := [],
        simulatedCount := 7 } ≠ 4 := by
  decide


theorem addWin_sched (t1 t2 : Team) (st : SeriesState) (w : Team) :
    (addWin t1 t2 st w).sched = st.sched := by
  unfold addWin
  repeat' split
  all_goals rfl

theorem addWin_played (t1 t2 : Team) (st : SeriesState) (w : Team) :
    (addWin t1 t2 st w).played = st.played := by
  unfold addWin
  repeat' split
  all_goals rfl

theorem addWin_simCount (t1 t2 : Team) (st : SeriesState) (w : Team) :
    (addWin t1 t2 st w).simulatedCount = st.simulatedCount := by
  unfold addWin
  repeat' split
  all_goals rfl

theorem addWin_wins_sum (t1 t2 : Team) (st : SeriesState) (w : Team)
    (h : w = t1 ∨ w = t2) :
    (addWin t1 t2 st w).wins1 + (addWin t1 t2 st w).wins2
      = st.wins1 + st.wins2 + 1 := by
  unfold addWin
  by_cases h1 : w = t1
  · rw [if_pos h1]
    dsimp only
    omega
  · rw [if_neg h1, if_pos (h.resolve_left h1)]
    dsimp only
    omega

theorem addWin_wins_bounds (t1 t2 : Team) (st : SeriesState) (w : Team) :
    st.wins1 ≤ (addWin t1 t2 st w).wins1 ∧
    (addWin t1 t2 st w).wins1 ≤ st.wins1 + 1 ∧
    st.wins2 ≤ (addWin t1 t2 st w).wins2 ∧
    (addWin t1 t2 st w).wins2 ≤ st.wins2 + 1 := by
  unfold addWin
  repeat' split
  all_goals refine ⟨?_, ?_, ?_, ?_⟩
  all_goals dsimp only
  all_goals omega

theorem addWin_wins2_of_eq (t1 t2 : Team) (st : SeriesState) (w : Team)
    (h : t1 = t2) : (addWin t1 t2 st w).wins2 = st.wins2 := by
  unfold addWin
  by_cases h1 : w = t1
  · rw [if_pos h1]
  · rw [if_neg h1, if_neg (fun hc => h1 (hc.trans h.symm))]

/-- A loop iteration after the series is decided (`max(wins.values()) >= 4`)
changes nothing. -/
theorem seriesStep_frozen (orac : GameOracle) (t1 t2 : Team)
    (st : SeriesState) (g : ScheduledGame)
    (h : 4 ≤ max st.wins1 st.wins2) : seriesStep orac t1 t2 st g = st := by
  unfold seriesStep
  rw [if_neg (by omega)]

theorem seriesStep_sched_len (orac : GameOracle) (t1 t2 : Team)
    (st : SeriesState) (g : ScheduledGame) :
    (seriesStep orac t1 t2 st g).sched.length = st.sched.length := by
  unfold seriesStep
  dsimp only
  repeat' split
  all_goals simp [markMustWin, addWin_sched]

theorem addWin_wins1_simCount (t1 t2 : Team) (st : SeriesState) (w : Team)
    (k : Nat) :
    (addWin t1 t2 { st with simulatedCount := k } w).wins1
      = (addWin t1 t2 st w).wins1 := by
  unfold addWin
  repeat' split
  all_goals rfl

theorem addWin_wins2_simCount (t1 t2 : Team) (st : SeriesState) (w : Team)
    (k : Nat) :
    (addWin t1 t2 { st with simulatedCount := k } w).wins2
      = (addWin t1 t2 st w).wins2 := by
  unfold addWin
  repeat' split
  all_goals rfl

/-- An undecided loop iteration simulates the game: the simulated count goes
up by one, and the win counters and played list record the oracle's result
(nothing on `None`, one win and one played game on a result). -/
theorem seriesStep_fields (orac : GameOracle) (t1 t2 : Team)
    (st : SeriesState) (g : ScheduledGame)
    (hlt : max st.wins1 st.wins2 < 4) :
    (seriesStep orac t1 t2 st g).simulatedCount = st.simulatedCount + 1 ∧
    (orac g = none →
      (seriesStep orac t1 t2 st g).wins1 = st.wins1 ∧
      (seriesStep orac t1 t2 st g).wins2 = st.wins2 ∧
      (seriesStep orac t1 t2 st g).played = st.played) ∧
    (∀ r, orac g = some r →
      (seriesStep orac t1 t2 st g).wins1 = (addWin t1 t2 st r.winner).wins1 ∧
      (seriesStep orac t1 t2 st g).wins2 = (addWin t1 t2 st r.winner).wins2 ∧
      (seriesStep orac t1 t2 st g).played = st.played ++ [r]) := by
  unfold seriesStep
  rw [if_pos hlt]
  dsimp only
  cases horac : orac g with
  | none =>
    dsimp only
    refine ⟨?_, fun _ => ⟨?_, ?_, ?_⟩, fun r hr => absurd hr (by simp)⟩
    all_goals repeat' split
    all_goals rfl
  | some r0 =>
    dsimp only
    refine ⟨?_, fun hn => absurd hn (by simp), fun r hr => ?_⟩
    · repeat' split
      all_goals simp [addWin_simCount]
    · injection hr with hrr
      subst hrr
      refine ⟨?_, ?_, ?_⟩
      all_goals repeat' split
      all_goals simp [addWin_played, addWin_wins1_simCount, addWin_wins2_simCount]

/-- Invariant of the `simulate_single_series` loop state (for an oracle that
always yields a result naming one of the two teams): the win counters sum to
the played-games count and to the simulated-games count, neither counter
exceeds 4, they are never both 4, a degenerate series of a team against
itself puts every win on the first counter, and the schedule keeps its
length. -/
def SeriesInv (t1 t2 : Team) (L : Nat) (st : SeriesState) : Prop :=
  st.wins1 + st.wins2 = st.played.length ∧
  st.wins1 + st.wins2 = st.simulatedCount ∧
  st.wins1 ≤ 4 ∧ st.wins2 ≤ 4 ∧ (st.wins1 ≤ 3 ∨ st.wins2 ≤ 3) ∧
  (t1 = t2 → st.wins2 = 0) ∧
  st.sched.length = L

theorem seriesIter_invariant (orac : GameOracle) (t1 t2 : Team)
    (hor : ∀ g r, orac g = some r → r.winner = t1 ∨ r.winner = t2)
    (htot : ∀ g, orac g ≠ none)
    (L : Nat) (st : SeriesState) (i : Nat) (hi : i < L)
    (hinv : SeriesInv t1 t2 L st) :
    SeriesInv t1 t2 L (seriesIter orac t1 t2 st i) ∧
    st.wins1 ≤ (seriesIter orac t1 t2 st i).wins1 ∧
    st.wins2 ≤ (seriesIter orac t1 t2 st i).wins2 ∧
    (seriesIter orac t1 t2 st i).wins1 + (seriesIter orac t1 t2 st i).wins2
      ≤ st.wins1 + st.wins2 + 1 ∧
    (max (seriesIter orac t1 t2 st i).wins1 (seriesIter orac t1 t2 st i).wins2 < 4 →
      (seriesIter orac t1 t2 st i).wins1 + (seriesIter orac t1 t2 st i).wins2
        = st.wins1 + st.wins2 + 1) := by
  obtain ⟨i1, i2, i3, i4, i5, i6, i7⟩ := hinv
  have hilt : i < st.sched.length := by omega
  have hget : st.sched[i]? = some st.sched[i] := List.getElem?_eq_getElem hilt
  unfold seriesIter
  rw [hget]
  dsimp only
  by_cases hdec : 4 ≤ max st.wins1 st.wins2
  · rw [seriesStep_frozen orac t1 t2 st _ hdec]
    exact ⟨⟨i1, i2, i3, i4, i5, i6, i7⟩, le_refl _, le_refl _, by omega,
      by omega⟩
  · have hlt : max st.wins1 st.wins2 < 4 := by omega
    obtain ⟨r, hr⟩ := Option.ne_none_iff_exists'.mp (htot st.sched[i])
    obtain ⟨f1, _, f3⟩ := seriesStep_fields orac t1 t2 st st.sched[i] hlt
    obtain ⟨w1, w2, w3⟩ := f3 r hr
    have hsum := addWin_wins_sum t1 t2 st r.winner (hor _ r hr)
    obtain ⟨b1, b2, b3, b4⟩ := addWin_wins_bounds t1 t2 st r.winner
    have hlen := seriesStep_sched_len orac t1 t2 st st.sched[i]
    refine ⟨⟨?_, ?_, ?_, ?_, ?_, ?_, ?_⟩, ?_, ?_, ?_, ?_⟩
    · rw [w1, w2, w3]
      simp only [List.length_append, List.length_cons, List.length_nil]
      omega
    · rw [w1, w2, f1]
      omega
    · rw [w1]
      omega
    · rw [w2]
      omega
    · rw [w1, w2]
      omega
    · intro ht
      rw [w2, addWin_wins2_of_eq t1 t2 st r.winner ht]
      exact i6 ht
    · rw [hlen]
      exact i7
    · rw [w1]
      omega
    · rw [w2]
      omega
    · rw [w1, w2]
      omega
    · intro _
      rw [w1, w2]
      omega

theorem seriesFold_invariant (orac : GameOracle) (t1 t2 : Team)
    (hor : ∀ g r, orac g = some r → r.winner = t1 ∨ r.winner = t2)
    (htot : ∀ g, orac g ≠ none)
    (L : Nat) (l : List Nat) (st : SeriesState)
    (hl : ∀ i ∈ l, i < L) (hinv : SeriesInv t1 t2 L st) :
    SeriesInv t1 t2 L (l.foldl (seriesIter orac t1 t2) st) ∧
    st.wins1 ≤ (l.foldl (seriesIter orac t1 t2) st).wins1 ∧
    st.wins2 ≤ (l.foldl (seriesIter orac t1 t2) st).wins2 ∧
    (l.foldl (seriesIter orac t1 t2) st).wins1
        + (l.foldl (seriesIter orac t1 t2) st).wins2
      ≤ st.wins1 + st.wins2 + l.length ∧
    (max (l.foldl (seriesIter orac t1 t2) st).wins1
        (l.foldl (seriesIter orac t1 t2) st).wins2 < 4 →
      (l.foldl (seriesIter orac t1 t2) st).wins1
          + (l.foldl (seriesIter orac t1 t2) st).wins2
        = st.wins1 + st.wins2 + l.length) := by
  induction l generalizing st with
  | nil =>
    exact ⟨hinv, le_refl _, le_refl _, by simp, by simp⟩
  | cons i l ih =>
    have hi : i < L := hl i (List.mem_cons_self i l)
    obtain ⟨s1, s2, s3, s4, s5⟩ :=
      seriesIter_invariant orac t1 t2 hor htot L st i hi hinv
    obtain ⟨k1, k2, k3, k4, k5⟩ := ih (seriesIter orac t1 t2 st i)
      (fun j hj => hl j (List.mem_cons_of_mem i hj)) s1
    simp only [List.foldl_cons, List.length_cons]
    refine ⟨k1, s2.trans k2, s3.trans k3, by omega, ?_⟩
    intro hmax
    have hstep := s5 (by omega)
    have hrest := k5 hmax
    omega

/-- C5 (amended): for a completed 7-game series in which every simulated game
yields a result whose winner is one of the two teams, the two win counts sum
to the number of game results the series carries, that sum is between 4 and 7
inclusive, and the winner's win count is exactly 4. (Without those provisos
the sum still equals the carried result count, but a missing game result adds
no win, so the 4-7 range and the winner's count of 4 can fail.) -/
theorem seriesWinCountsSound (orac : GameOracle) (g0 : ScheduledGame)
    (gs : List ScheduledGame) (o : SeriesOutcome)
    (hor : ∀ g r, orac g = some r → r.winner = g0.home ∨ r.winner = g0.away)
    (htot : ∀ g, orac g ≠ none)
    (hlen : (g0 :: gs).length = 7)
    (h : simulate_single_series orac (g0 :: gs) = some o) :
    o.wins1 + o.wins2 = o.games.length ∧
    4 ≤ o.wins1 + o.wins2 ∧ o.wins1 + o.wins2 ≤ 7 ∧
    winnerWinCount g0.home o = 4 := by
  unfold simulate_single_series at h
  dsimp only at h
  injection h with h
  subst h
  unfold winnerWinCount
  dsimp only
  have hL : seriesLoop orac g0.home g0.away
      { wins1 := 0, wins2 := 0, played := [], simulatedCount := 0,
        sched := g0 :: gs }
      = (List.range ((g0 :: gs).length)).foldl (seriesIter orac g0.home g0.away)
        { wins1 := 0, wins2 := 0, played := [], simulatedCount := 0,
          sched := g0 :: gs } := rfl
  rw [hL]
  have hinv0 : SeriesInv g0.home g0.away 7
      { wins1 := 0, wins2 := 0, played := [], simulatedCount := 0,
        sched := g0 :: gs } :=
    ⟨rfl, rfl, by dsimp only; omega, by dsimp only; omega,
      Or.inl (by dsimp only; omega), fun _ => rfl, hlen⟩
  have hl : ∀ i ∈ List.range ((g0 :: gs).length), i < 7 :=
    fun i hi => hlen ▸ List.mem_range.mp hi
  obtain ⟨⟨v1, v2, v3, v4, v5, v6, _⟩, _, _, vub, vexact⟩ :=
    seriesFold_invariant orac g0.home g0.away hor htot 7
      (List.range ((g0 :: gs).length))
      { wins1 := 0, wins2 := 0, played := [], simulatedCount := 0,
        sched := g0 :: gs } hl hinv0
  have hlr : (List.range ((g0 :: gs).length)).length = 7 := by
    rw [List.length_range]
    exact hlen
  have hmax : 4 ≤ max
      ((List.range ((g0 :: gs).length)).foldl (seriesIter orac g0.home g0.away)
        { wins1 := 0, wins2 := 0, played := [], simulatedCount := 0,
          sched := g0 :: gs }).wins1
      ((List.range ((g0 :: gs).length)).foldl (seriesIter orac g0.home g0.away)
        { wins1 := 0, wins2 := 0, played := [], simulatedCount := 0,
          sched := g0 :: gs }).wins2 := by
    by_contra hm
    have hx := vexact (by omega)
    omega
  refine ⟨v1, by omega, by omega, ?_⟩
  by_cases hw : ((List.range ((g0 :: gs).length)).foldl
        (seriesIter orac g0.home g0.away)
        { wins1 := 0, wins2 := 0, played := [], simulatedCount := 0,
          sched := g0 :: gs }).wins2
      < ((List.range ((g0 :: gs).length)).foldl (seriesIter orac g0.home g0.away)
        { wins1 := 0, wins2 := 0, played := [], simulatedCount := 0,
          sched := g0 :: gs }).wins1
  · rw [if_pos hw, if_pos rfl]
    omega
  · rw [if_neg hw]
    by_cases heq : g0.away = g0.home
    · rw [if_pos heq]
      have h0 := v6 heq.symm
      omega
    · rw [if_neg heq]
      omega

/-- The series outcome of the stubbed all-A-wins oracle on the canonical
schedule: A sweeps in four games. -/
def sweepOutcome : SeriesOutcome :=
  { winner := "A", wins1 := 4, wins2 := 0,
    games :=
      [ { gameNum := 1, home := "A", away := "B", winner := "A", score := "101-99" },
        { gameNum := 2, home := "A", away := "B", winner := "A", score := "101-99" },
        { gameNum := 3, home := "B", away := "A", winner := "A", score := "101-99" },
        { gameNum := 4, home := "B", away := "A", winner := "A", score := "101-99" } ],
    simulatedCount := 4 }

/-- Witness for C5 (amended) at the all-A-wins oracle on the canonical
7-game schedule. -/
theorem seriesWinCountsSound_witness :
    simulate_single_series aWinsOracle demoSched = some sweepOutcome ∧
    (sweepOutcome.wins1 + sweepOutcome.wins2 = sweepOutcome.games.length ∧
     4 ≤ sweepOutcome.wins1 + sweepOutcome.wins2 ∧
     sweepOutcome.wins1 + sweepOutcome.wins2 ≤ 7 ∧
     winnerWinCount "A" sweepOutcome = 4) :=
  ⟨by decide,
   seriesWinCountsSound aWinsOracle
     { gameNum := 1, home := "A", away := "B", mustWin := false }
     (demoSched.drop 1) sweepOutcome
     (fun g r hr => by
       simp only [aWinsOracle, Option.some.injEq] at hr
       subst hr
       exact Or.inl rfl)
     (fun g => by simp [aWinsOracle])
     (by decide) (by decide)⟩

/-- The winner-collection fragment of `simulate_playoffs` (lines 389-406 for
the first round, 451-466 for the semifinals): walk the round's series results
in order; a winner already in `advanced_teams` is skipped with a warning; an
eastern winner is appended to the east list, a western one to the west list;
a winner in neither conference is only logged. -/
def collectWinners (winners : List Team) (eastTeams westTeams : List Team) :
    List Team × List Team :=
  winners.foldl
    (fun acc w =>
      if w ∈ acc.1 ∨ w ∈ acc.2 then acc
      else if w ∈ eastTeams then (acc.1 ++ [w], acc.2)
      else if w ∈ westTeams then (acc.1, acc.2 ++ [w])
      else acc)
    ([], [])

/-- Hard-coded eastern fallback of `simulate_playoffs` line 414. -/
def eastFirstRoundFallback : List Team :=
  ["Boston Celtics", "Milwaukee Bucks", "Philadelphia 76ers", "Cleveland Cavaliers"]

/-- Hard-coded western fallback of `simulate_playoffs` line 418. -/
def westFirstRoundFallback : List Team :=
  ["Los Angeles Lakers", "Golden State Warriors", "Dallas Mavericks", "Houston Rockets"]

/-- Hard-coded eastern semifinal fallback of `simulate_playoffs` line 474. -/
def eastSemifinalFallback : List Team := ["Boston Celtics", "Milwaukee Bucks"]

/-- Hard-coded western semifinal fallback of `simulate_playoffs` line 478. -/
def westSemifinalFallback : List Team := ["Los Angeles Lakers", "Denver Nuggets"]

/-- `if len(winners) != expected: logging.error(...); winners = fallback` —
the winner list is replaced by the hard-coded fallback roster whenever the
count check fails, and the simulation continues. -/
def fixupWinners (expected : Nat) (ws fallback : List Team) : List Team :=
  if ws.length = expected then ws else fallback

/-- Conference-semifinal matchups built from four advanced teams
(`(w[0], w[3]), (w[1], w[2])`, lines 422-431); after `fixupWinners` the list
always has length 4, so the catch-all (Python would raise `IndexError`) is
unreachable. -/
def semifinalPairs (l : List Team) : List (Team × Team) :=
  match l with
  | [a, b, c, d] => [(a, d), (b, c)]
  | _ => []

/-- Conference-final matchup built from two advanced teams
(`(w[0], w[1])`, lines 482-485). -/
def finalPair (l : List Team) : List (Team × Team) :=
  match l with
  | [a, b] => [(a, b)]
  | _ => []

/-- First-round-to-semifinal advance of `simulate_playoffs`: collect winners
per conference, patch a wrong count with the hard-coded fallback, and build
the semifinal brackets. The function is total — the playoff simulation never
halts on a wrong winner count. -/
def firstRoundAdvance (winners east west : List Team) :
    List (Team × Team) × List (Team × Team) :=
  (semifinalPairs
      (fixupWinners 4 (collectWinners winners east west).1 eastFirstRoundFallback),
   semifinalPairs
      (fixupWinners 4 (collectWinners winners east west).2 westFirstRoundFallback))

/-- Semifinal-to-conference-final advance of `simulate_playoffs` with its
own hard-coded fallbacks (expected two winners per conference). -/
def semifinalAdvance (winners east west : List Team) :
    List (Team × Team) × List (Team × Team) :=
  (finalPair
      (fixupWinners 2 (collectWinners winners east west).1 eastSemifinalFallback),
   finalPair
      (fixupWinners 2 (collectWinners winners east west).2 westSemifinalFallback))

/-- An eastern conference set for the counterexample round. -/
def c1East : List Team :=
  ["Miami Heat", "New York Knicks", "Atlanta Hawks", "Chicago Bulls",
   "Boston Celtics", "Milwaukee Bucks", "Philadelphia 76ers", "Cleveland Cavaliers"]

/-- A western conference set for the counterexample round. -/
def c1West : List Team :=
  ["Los Angeles Lakers", "Golden State Warriors", "Dallas Mavericks",
   "Houston Rockets", "Denver Nuggets", "Phoenix Suns", "Memphis Grizzlies",
   "Sacramento Kings"]

/-- A first round whose eight series yield only three distinct eastern
winners (the Heat appear twice). -/
def c1Winners : List Team :=
  ["Miami Heat", "Miami Heat", "New York Knicks", "Atlanta Hawks",
   "Los Angeles Lakers", "Golden State Warriors", "Dallas Mavericks",
   "Houston Rockets"]

/-- C1 counterexample: on a first round with only three distinct eastern
winners, `simulate_playoffs` does not halt — it builds the eastern semifinal
matchups from the hard-coded fallback roster, pairing the Celtics, Cavaliers,
Bucks and 76ers, none of whom (Celtics in particular) won a first-round
series in this run. This refutes the claim that a wrong winner count halts
the playoff simulation and never substitutes fabricated teams. -/
theorem firstRoundFallbackFabricates :
    (firstRoundAdvance c1Winners c1East c1West).1
      = [("Boston Celtics", "Cleveland Cavaliers"),
         ("Milwaukee Bucks", "Philadelphia 76ers")] ∧
    "Boston Celtics" ∉ c1Winners ∧
    (collectWinners c1Winners c1East c1West).1.length ≠ 4 := by
  decide

/-- C1 (amended): whenever a playoff round does not yield the expected number
of distinct winners for a conference (4 after the First Round, 2 after the
Semifinals), `simulate_playoffs` logs an error and continues with the
hard-coded fallback winner list for that conference instead of halting. -/
theorem wrongWinnerCountUsesFallback (winners east west : List Team) :
    ((collectWinners winners east west).1.length ≠ 4 →
      (firstRoundAdvance winners east west).1
        = semifinalPairs eastFirstRoundFallback) ∧
    ((collectWinners winners east west).2.length ≠ 4 →
      (firstRoundAdvance winners east west).2
        = semifinalPairs westFirstRoundFallback) ∧
    ((collectWinners winners east west).1.length ≠ 2 →
      (semifinalAdvance winners east west).1
        = finalPair eastSemifinalFallback) ∧
    ((collectWinners winners east west).2.length ≠ 2 →
      (semifinalAdvance winners east west).2
        = finalPair westSemifinalFallback) := by
  refine ⟨fun h => ?_, fun h => ?_, fun h => ?_, fun h => ?_⟩
  · simp only [firstRoundAdvance, fixupWinners]
    rw [if_neg h]
  · simp only [firstRoundAdvance, fixupWinners]
    rw [if_neg h]
  · simp only [semifinalAdvance, fixupWinners]
    rw [if_neg h]
  · simp only [semifinalAdvance, fixupWinners]
    rw [if_neg h]

/-- Witness for C1 (amended) at the three-eastern-winner round. -/
theorem wrongWinnerCountUsesFallback_witness :
    (firstRoundAdvance c1Winners c1East c1West).1
      = semifinalPairs eastFirstRoundFallback :=
  (wrongWinnerCountUsesFallback c1Winners c1East c1West).1 (by decide)

/-- The result dict that `NBA_Game.run` inserts into the shared
`game_results` table under `game_lock` (score and winner fields; the events,
arena, date and per-player stats carried alongside do not affect the table's
keying and are omitted). -/
structure GameRecord where
  team1 : Team
  team2 : Team
  score1 : Int
  score2 : Int
  winner : Team
deriving DecidableEq

/-- `game_results[game_id] = {...}`: Python dict assignment — replace in
place when the key exists, append otherwise. The `game_lock` critical
section makes each such insert atomic. -/
def insertResult (tbl : List (String × GameRecord)) (k : String)
    (v : GameRecord) : List (String × GameRecord) :=
  if tbl.any (fun e => e.1 = k) then
    tbl.map (fun e => if e.1 = k then (k, v) else e)
  else tbl ++ [(k, v)]

/-- `simulate_parallel_games` abstracted to its effect on the shared result
table: each submitted game task performs exactly one lock-protected insert of
its result under its game id, so `game_lock` serialises a batch of K game
tasks into some order of K atomic inserts starting from the empty table; the
`as_completed` loop is the join barrier after which the table is read. An
execution under an arbitrary task interleaving is `runScheduler` of some
permutation of the batch. -/
def runScheduler (ops : List (String × GameRecord)) :
    List (String × GameRecord) :=
  ops.foldl (fun tbl op => insertResult tbl op.1 op.2) []

theorem insertResult_fresh (tbl : List (String × GameRecord)) (k : String)
    (v : GameRecord) (h : ∀ e ∈ tbl, e.1 ≠ k) :
    insertResult tbl k v = tbl ++ [(k, v)] := by
  unfold insertResult
  rw [if_neg ?_]
  intro hc
  rw [List.any_eq_true] at hc
  obtain ⟨e, he, hek⟩ := hc
  exact h e he (by simpa using hek)

theorem schedulerFold_nodup (ops tbl : List (String × GameRecord))
    (h : ((tbl ++ ops).map Prod.fst).Nodup) :
    ops.foldl (fun t op => insertResult t op.1 op.2) tbl = tbl ++ ops := by
  induction ops generalizing tbl with
  | nil => simp
  | cons op ops ih =>
    have hfresh : ∀ e ∈ tbl, e.1 ≠ op.1 := by
      intro e he hc
      rw [List.map_append, List.nodup_append] at h
      exact h.2.2 (List.mem_map_of_mem Prod.fst he) (by simp [hc])
    rw [List.foldl_cons, insertResult_fresh tbl op.1 op.2 hfresh]
    have hnd : (((tbl ++ [(op.1, op.2)]) ++ ops).map Prod.fst).Nodup := by
      simpa using h
    rw [ih (tbl ++ [(op.1, op.2)]) hnd]
    simp

/-- A table whose keys are distinct holds each key exactly once after the
run. -/
theorem keyCount_eq_one (ops : List (String × GameRecord))
    (hnd : (ops.map Prod.fst).Nodup) (kv : String × GameRecord)
    (hm : kv ∈ ops) : ops.countP (fun e => e.1 = kv.1) = 1 := by
  induction ops with
  | nil => cases hm
  | cons a l ih =>
    rw [List.map_cons, List.nodup_cons] at hnd
    rw [List.countP_cons]
    rcases List.mem_cons.mp hm with h | h
    · subst h
      have hz : l.countP (fun e => decide (e.1 = kv.1)) = 0 := by
        rw [List.countP_eq_zero]
        intro e he hc
        exact hnd.1 (by
          rw [decide_eq_true_iff] at hc
          rw [← hc]
          exact List.mem_map_of_mem Prod.fst he)
      simp [hz]
    · have hne : ¬(a.1 = kv.1) := by
        intro hc
        exact hnd.1 (hc ▸ List.mem_map_of_mem Prod.fst h)
      rw [ih hnd.2 h]
      simp [hne]

/-- C4: for a batch of K game descriptors with distinct game ids, and any
interleaving of the K lock-serialised result inserts (an arbitrary
permutation of the batch), the shared result table after the join barrier
holds exactly K entries, and each game's result is present with its id
occurring exactly once — no lost and no duplicated entries. -/
theorem schedulerTableExactlyOnce (ops interleaved : List (String × GameRecord))
    (hperm : interleaved.Perm ops)
    (hnd : (ops.map Prod.fst).Nodup) :
    (runScheduler interleaved).length = ops.length ∧
    ∀ kv ∈ ops, kv ∈ runScheduler interleaved ∧
      (runScheduler interleaved).countP (fun e => e.1 = kv.1) = 1 := by
  have hndi : (interleaved.map Prod.fst).Nodup :=
    (List.Perm.nodup_iff (hperm.map Prod.fst)).mpr hnd
  have hrun : runScheduler interleaved = interleaved := by
    unfold runScheduler
    have hfold := schedulerFold_nodup interleaved [] (by simpa using hndi)
    simpa using hfold
  refine ⟨by rw [hrun]; exact hperm.length_eq, fun kv hm => ⟨?_, ?_⟩⟩
  · rw [hrun]
    exact hperm.mem_iff.mpr hm
  · rw [hrun, List.Perm.countP_eq _ hperm]
    exact keyCount_eq_one ops hnd kv hm

/-- Result record of a first concrete game. -/
def rec1 : GameRecord :=
  { team1 := "A", team2 := "B", score1 := 101, score2 := 99, winner := "A" }

/-- Result record of a second concrete game. -/
def rec2 : GameRecord :=
  { team1 := "C", team2 := "D", score1 := 88, score2 := 90, winner := "D" }

/-- Witness for C4: a two-game batch inserted in reverse order still yields a
table with exactly two entries, game G1's result present exactly once. -/
theorem schedulerTableExactlyOnce_witness :
    (runScheduler [("G2", rec2), ("G1", rec1)]).length
      = [("G1", rec1), ("G2", rec2)].length ∧
    (("G1", rec1) ∈ runScheduler [("G2", rec2), ("G1", rec1)] ∧
      (runScheduler [("G2", rec2), ("G1", rec1)]).countP
        (fun e => e.1 = "G1") = 1) :=
  ⟨(schedulerTableExactlyOnce [("G1", rec1), ("G2", rec2)]
      [("G2", rec2), ("G1", rec1)] (by decide) (by decide)).1,
   (schedulerTableExactlyOnce [("G1", rec1), ("G2", rec2)]
      [("G2", rec2), ("G1", rec1)] (by decide) (by decide)).2
     ("G1", rec1) (by decide)⟩

/-- Witness for C2 (amended) at a concrete game. -/
theorem oneOvertimeOnly_witness :
    ((NBA_Game.run emptyDB zeroEnv (mkGame "A" "B" [] [])).quartersCompleted = 4 ∨
      (NBA_Game.run emptyDB zeroEnv (mkGame "A" "B" [] [])).quartersCompleted = 5) ∧
    ((runRegulation emptyDB zeroEnv (mkGame "A" "B" [] [])).score1
        = (runRegulation emptyDB zeroEnv (mkGame "A" "B" [] [])).score2 ↔
      (NBA_Game.run emptyDB zeroEnv (mkGame "A" "B" [] [])).quartersCompleted = 5) :=
  oneOvertimeOnly emptyDB zeroEnv "A" "B" [] []

/-- Witness for C7 (amended) at concrete home/away flags. -/
theorem reboundBoostTwoPtOnly_witness :
    twoPtDefReboundChance true
      = 700000 + (if true then home_rebound_boost else -home_rebound_boost) ∧
    threePtDefReboundChance false = 750000 :=
  ⟨reboundBoostTwoPtOnly.1 true, reboundBoostTwoPtOnly.2 false⟩
